import Mathlib

/-!
Shallow embedding of `src/scripts/markdown_converter.py` (class
`MarkdownConverter`) and proofs about the claims of its specification.

Python strings are modelled as Lean `String`; the regex substitutions of
`_clean_markdown` are modelled as structural scans over `List Char` whose
effect is provably the same as `re.sub`'s leftmost non-overlapping
replacement for these concrete patterns (argued rule by rule in the
comments below).  Font sizes are modelled as `ℚ` (the Python floats are
only compared with `>` against integer constants, and the spec's probe
value 16.01 is exactly representable as a rational).
-/

namespace MDC

/-- Python's `\s` / `str.strip()` whitespace class, restricted to the ASCII
whitespace characters (the only ones this program can produce or that the
claims exercise): space, tab, newline, carriage return, vertical tab,
form feed. -/
def isPySpace (c : Char) : Bool :=
  c = ' ' ∨ c = '\t' ∨ c = '\n' ∨ c = '\r' ∨ c = '\x0b' ∨ c = '\x0c'

/-- Python `str.strip()` on a character list. -/
def pyStripL (l : List Char) : List Char :=
  ((l.dropWhile isPySpace).reverse.dropWhile isPySpace).reverse

/-- Python `str.strip()`. -/
def pyStrip (s : String) : String :=
  ⟨pyStripL s.data⟩

/-- Python `str.split()` with no argument (used for `word_count`):
split on runs of whitespace, dropping empty tokens.  First argument is the
reversed current word accumulator. -/
def splitWsAux : List Char → List Char → List (List Char)
  | cur, [] => if cur = [] then [] else [cur.reverse]
  | cur, c :: rest =>
    if isPySpace c then
      (if cur = [] then [] else [cur.reverse]) ++ splitWsAux [] rest
    else
      splitWsAux (c :: cur) rest

/-- Number of whitespace-delimited words of a string
(`len(s.split())` in the Python source). -/
def pyWordCount (s : String) : Nat :=
  (splitWsAux [] s.data).length

/-- Python `s.split('\n')` on a character list: always returns at least
one group; a trailing newline yields a trailing empty group. -/
def splitNl : List Char → List (List Char)
  | [] => [[]]
  | '\n' :: rest => [] :: splitNl rest
  | c :: rest =>
    match splitNl rest with
    | [] => [[c]]
    | g :: gs => (c :: g) :: gs

/-- Python `'\n'.join(...)` on character lists. -/
def joinNl : List (List Char) → List Char
  | [] => []
  | [g] => g
  | g :: gs => g ++ '\n' :: joinNl gs

/-! ## `_clean_markdown`, rule by rule

`_clean_markdown` applies four `re.sub` calls, a line-by-line table pass
and a final `strip()`, in this order.  Each `re.sub` is modelled by a
structural scan equivalent to leftmost non-overlapping replacement. -/

/-- Rule 1, `re.sub(r'\n{3,}', '\n\n', s)`: every maximal run of three or
more newlines is replaced by exactly two.  `k` counts pending newlines. -/
def rule1Emit (k : Nat) : List Char :=
  if 3 ≤ k then ['\n', '\n'] else List.replicate k '\n'

def rule1Aux : Nat → List Char → List Char
  | k, [] => rule1Emit k
  | k, '\n' :: rest => rule1Aux (k + 1) rest
  | k, c :: rest => rule1Emit k ++ c :: rule1Aux 0 rest

def rule1 (l : List Char) : List Char := rule1Aux 0 l

/-- Rule 2, `re.sub(r'\n(#{1,6})', r'\n\n\1', s)`: one extra newline is
inserted at every occurrence of a newline immediately followed by `#`.
(The `#{1,6}` group only consumes `#` characters, which cannot start or
contain another match, so consuming a single `#` is equivalent.)  Note
the pattern does NOT require the newline to be the start of a blank-free
boundary: a `\n#` preceded by another newline still matches. -/
def rule2 : List Char → List Char
  | [] => []
  | '\n' :: '#' :: rest => '\n' :: '\n' :: '#' :: rule2 rest
  | c :: rest => c :: rule2 rest

/-- Rule 3, `re.sub(r'(#{1,6}.*)\n([^\n#])', r'\1\n\n\2', s)`: since `.`
cannot cross a newline, a match is a line containing `#` (the match
starting at its first `#`), the following newline, and a next character
that is neither a newline nor `#`; the replacement inserts one extra
newline between them.  `seen` records whether the current line, up to the
scan position, contains `#`.  Matching is against the original string
(`re.sub` semantics), which the single left-to-right scan reproduces. -/
def rule3Aux : Bool → List Char → List Char
  | _, [] => []
  | seen, '\n' :: c :: rest =>
    if seen = true ∧ c ≠ '\n' ∧ c ≠ '#' then
      '\n' :: '\n' :: c :: rule3Aux false rest
    else
      '\n' :: rule3Aux false (c :: rest)
  | seen, c :: rest => c :: rule3Aux (seen ∨ c = '#') rest

def rule3 (l : List Char) : List Char := rule3Aux false l

/-- List-marker characters of rule 4 (`[-*+]`). -/
def isBullet (c : Char) : Bool :=
  c = '-' ∨ c = '*' ∨ c = '+'

/-- Duplicate the first newline of a whitespace run (the effect of the
rule-4 replacement on the matched text). -/
def insertBeforeFirstNl : List Char → List Char
  | [] => []
  | c :: rest =>
    if c = '\n' then '\n' :: c :: rest else c :: insertBeforeFirstNl rest

def rule4Flush (ws : List Char) : List Char :=
  if ws.contains '\n' then insertBeforeFirstNl ws else ws

/-- Rule 4, `re.sub(r'\n(\s*[-*+])', r'\n\n\1', s)`: a match is the first
newline of a maximal whitespace run that is immediately followed by `-`,
`*` or `+` (greedy `\s*` takes the whole rest of the run, and
backtracking positions inside the run are whitespace, never a bullet);
the replacement inserts one extra newline before that first newline, and
the whole matched region is consumed, so each such run produces exactly
one insertion.  Implemented as a right-to-left scan; `buf = some ws`
means the part already processed begins with the whitespace run `ws`
followed by a bullet character. -/
def rule4Aux : List Char → List Char × Option (List Char)
  | [] => ([], none)
  | c :: rest =>
    match rule4Aux rest with
    | (out, none) =>
      if isBullet c then (c :: out, some []) else (c :: out, none)
    | (out, some ws) =>
      if isPySpace c then (out, some (c :: ws))
      else if isBullet c then (c :: (rule4Flush ws ++ out), some [])
      else (c :: (rule4Flush ws ++ out), none)

def rule4 (l : List Char) : List Char :=
  match rule4Aux l with
  | (out, none) => out
  | (out, some ws) => rule4Flush ws ++ out

/-- One line of the table pass: `'|' in line and line.strip().startswith('|')`. -/
def isTableLine (l : List Char) : Bool :=
  l.contains '|' ∧ (pyStripL l).head? = some '|'

/-- The table pass of `_clean_markdown`: a blank line is appended before
every not-table→table transition and after every table→not-table
transition, with `prev_was_table` initially false. -/
def tableFold (prev : Bool) : List (List Char) → List (List Char)
  | [] => []
  | l :: rest =>
    if isTableLine l ∧ prev = false then [] :: l :: tableFold (isTableLine l) rest
    else if isTableLine l = false ∧ prev = true then [] :: l :: tableFold (isTableLine l) rest
    else l :: tableFold (isTableLine l) rest

/-- `MarkdownConverter._clean_markdown`: the four substitutions, the table
pass, and a final `strip()`. -/
def cleanMarkdownL (l : List Char) : List Char :=
  pyStripL (joinNl (tableFold false (splitNl (rule4 (rule3 (rule2 (rule1 l)))))))

def cleanMarkdown (s : String) : String :=
  ⟨cleanMarkdownL s.data⟩

/-! ## Span classifier and page assembler (`_process_pdf_blocks`) -/

/-- One text span of the layout extractor's `page.get_text("dict")`
output: `span["text"]`, `span.get("size", 12)`, `span.get("flags", 0)`.
Sizes are rationals (the Python floats are only compared with `>`
against 16, 14 and 12). -/
structure Span where
  text : String
  size : ℚ
  flags : Nat
deriving DecidableEq

/-- Bold / italic wrapping of body text: `font_flags & 2**4` wraps in
`**...**` first, then `font_flags & 2**1` wraps in `*...*`. -/
def applyStyle (flags : Nat) (text : String) : String :=
  if flags &&& 16 ≠ 0 then
    if flags &&& 2 ≠ 0 then "*" ++ ("**" ++ text ++ "**") ++ "*"
    else "**" ++ text ++ "**"
  else
    if flags &&& 2 ≠ 0 then "*" ++ text ++ "*" else text

/-- The body of the span loop of `_process_pdf_blocks`: given the
accumulated `line_text` and one span, produce the new `line_text`.
A blank span is skipped; a span with `size > 16`, `> 14` or `> 12`
REPLACES `line_text` with a heading rendering of the stripped span text;
otherwise the styled text plus a space is appended. -/
def renderSpanStep (lineText : String) (sp : Span) : String :=
  if pyStrip sp.text = "" then lineText
  else if sp.size > 16 then "# " ++ pyStrip sp.text
  else if sp.size > 14 then "## " ++ pyStrip sp.text
  else if sp.size > 12 then "### " ++ pyStrip sp.text
  else lineText ++ applyStyle sp.flags (pyStrip sp.text) ++ " "

/-- The full span loop for one extractor line: `line_text` starts empty
and each span of the line is folded in. -/
def processLine (spans : List Span) : String :=
  spans.foldl renderSpanStep ""

/-- One block of the extractor output: blocks without a `"lines"` key
(image blocks) are skipped by the code. -/
inductive Block where
  | noLines
  | withLines (lines : List (List Span))
deriving DecidableEq

def blockLines : Block → List (List Span)
  | .noLines => []
  | .withLines ls => ls

/-- `"\n\n".join(...)`. -/
def joinSep (sep : String) : List String → String
  | [] => ""
  | [x] => x
  | x :: xs => x ++ sep ++ joinSep sep xs

/-- `MarkdownConverter._process_pdf_blocks`: every line whose processed
text is non-blank contributes its stripped text, and the collected lines
are joined with blank lines.  (The `page_num` and `options` parameters of
the Python method are unused by its body and therefore omitted.) -/
def processPdfBlocks (blocks : List Block) : String :=
  joinSep "\n\n"
    (blocks.flatMap fun b =>
      (blockLines b).filterMap fun line =>
        if pyStrip (processLine line) = "" then none
        else some (pyStrip (processLine line)))

/-! ## Page joining (`pdf_to_markdown` page loop) -/

/-- The separator `f"\n\n---\n*Page {page_num + 1}*\n\n"`. -/
def pageMarker (n : Nat) : String :=
  "\n\n---\n*Page " ++ toString n ++ "*\n\n"

/-- The page loop of `pdf_to_markdown`: page `i` (0-based) contributes
nothing when its markdown is blank; otherwise it is appended, preceded by
the page marker whenever `i > 0` (regardless of whether any earlier page
contributed content). -/
def joinPagesAux : Nat → List String → String
  | _, [] => ""
  | i, p :: rest =>
    (if pyStrip p = "" then ""
     else (if 0 < i then pageMarker (i + 1) else "") ++ p)
      ++ joinPagesAux (i + 1) rest

def joinPages (pages : List String) : String :=
  joinPagesAux 0 pages

/-! ## Filesystem model, conversion orchestrator and batch driver

Only what the Python code observes is modelled: an ordered list of files,
each a path plus content.  PDF content is represented by the layout
extractor's output (the per-page block lists that `page.get_text("dict")`
would return); office documents and other files are opaque. -/

inductive FileContent where
  | pdf (pages : List (List Block))
  | raw
  | text (s : String)
deriving DecidableEq

structure MFile where
  path : String
  content : FileContent
deriving DecidableEq

abbrev FS := List MFile

def fsHas (fs : FS) (p : String) : Bool :=
  fs.any (·.path = p)

def fsGet (fs : FS) (p : String) : Option FileContent :=
  (fs.find? (·.path = p)).map (·.content)

/-- `open(path, 'w')`: overwrite an existing file or create a new one. -/
def writeFile (fs : FS) (p : String) (c : FileContent) : FS :=
  if fsHas fs p then
    fs.map fun f => if f.path = p then ⟨f.path, c⟩ else f
  else fs ++ [⟨p, c⟩]

/-- The final path component (`Path(p).name`). -/
def pathName (p : String) : String :=
  ⟨(p.data.reverse.takeWhile (· ≠ '/')).reverse⟩

/-- `Path(p).suffix`: the extension of the final component — `name[i:]`
for `i = name.rfind('.')` when `0 < i < len(name) - 1`, else the empty
string (so `.txt` alone and a trailing dot have no suffix). -/
def pathSuffix (p : String) : String :=
  let name := (pathName p).data
  let ext := name.reverse.takeWhile (· ≠ '.')
  if name.reverse.contains '.' ∧ ext.length ≠ 0 ∧ ext.length + 1 ≠ name.length then
    ⟨'.' :: ext.reverse⟩
  else ""

/-- `Path(p).with_suffix('.md')`. -/
def withSuffixMd (p : String) : String :=
  ⟨p.data.take (p.data.length - (pathSuffix p).length)⟩ ++ ".md"

/-- ASCII lower-casing (`file_ext.lower()`; extensions are ASCII). -/
def asciiLower (c : Char) : Char :=
  if 'A' ≤ c ∧ c ≤ 'Z' then Char.ofNat (c.toNat + 32) else c

def strLower (s : String) : String :=
  ⟨s.data.map asciiLower⟩

/-- The keys of `self.supported_formats`, in dictionary order. -/
def supportedExts : List String :=
  [".pdf", ".docx", ".doc", ".pptx", ".ppt", ".xlsx", ".xls", ".odt", ".odp", ".ods"]

/-- The `ConversionResult` record of `pdf_to_markdown` /
`office_to_markdown`.  The wall-clock `duration` and the constant
`metadata` map are not modelled. -/
structure ConvResult where
  success : Bool
  inputPath : String
  outputPath : String
  conversionType : String
  pagesProcessed : Nat
  fileSize : Nat
  wordCount : Nat
  charCount : Nat
deriving DecidableEq

/-- Errors raised by `convert_to_markdown` and its callees:
`FileNotFoundError`, `ValueError` for an unsupported extension, and
`RuntimeError` from the external-converter path. -/
inductive ConvErr where
  | fileNotFound (path : String)
  | unsupportedFormat (ext : String)
  | externalFailure (msg : String)
deriving DecidableEq

/-- `MarkdownConverter.pdf_to_markdown`: process each page's blocks, join
non-blank pages with markers, clean, write the output file, and report
success with counts computed on the cleaned content.  (`file_size` is the
byte size of the written UTF-8 file.) -/
def pdfToMarkdown (fs : FS) (pdfPath outputPath : String)
    (pages : List (List Block)) : ConvResult × FS :=
  let full := cleanMarkdown (joinPages (pages.map processPdfBlocks))
  ({ success := true
     inputPath := pdfPath
     outputPath := outputPath
     conversionType := "pdf_to_markdown"
     pagesProcessed := pages.length
     fileSize := full.utf8ByteSize
     wordCount := pyWordCount full
     charCount := full.length },
   writeFile fs outputPath (.text full))

/-- The external document-to-markup converter collaborator
(`office_to_markdown`'s pandoc invocation): not part of this repository,
so the orchestrator is parametrised over it. -/
def OfficeOracle : Type :=
  FS → String → String → (Except ConvErr ConvResult) × FS

/-- An office oracle whose external process always fails (used to
instantiate theorems whose inputs never reach the office path). -/
def failingOffice : OfficeOracle :=
  fun fs _ _ => (.error (.externalFailure "Pandoc conversion failed"), fs)

/-- `MarkdownConverter.convert_to_markdown`: existence check, extension
check (case-insensitive), output-path defaulting, then dispatch through
`self.supported_formats` — `.pdf` to `pdf_to_markdown`, every other
supported extension to `office_to_markdown`.  Errors are raised before
anything is written, so the filesystem is returned unchanged there. -/
def convertToMarkdown (office : OfficeOracle) (fs : FS) (inputPath : String)
    (outputPath? : Option String) : (Except ConvErr ConvResult) × FS :=
  if fsHas fs inputPath then
    if supportedExts.contains (strLower (pathSuffix inputPath)) then
      let outputPath := outputPath?.getD (withSuffixMd inputPath)
      if strLower (pathSuffix inputPath) = ".pdf" then
        match fsGet fs inputPath with
        | some (.pdf pages) =>
          let r := pdfToMarkdown fs inputPath outputPath pages
          (.ok r.1, r.2)
        | _ => (.error (.externalFailure "cannot open document"), fs)
      else office fs inputPath outputPath
    else (.error (.unsupportedFormat (strLower (pathSuffix inputPath))), fs)
  else (.error (.fileNotFound inputPath), fs)

/-- A record of `batch_convert`'s result list: either a `ConversionResult`
or the `{'success': False, 'input_path': ..., 'error': ...}` dictionary
built in the `except` branch. -/
inductive BatchRecord where
  | ok (r : ConvResult)
  | fail (inputPath : String) (error : ConvErr)
deriving DecidableEq

def BatchRecord.isSuccess : BatchRecord → Bool
  | .ok r => r.success
  | .fail _ _ => false

/-- `file_path.relative_to(input_path)` for a file below the root. -/
def relTo (root p : String) : String :=
  if p.data.take (root.length + 1) = (root ++ "/").data then
    ⟨p.data.drop (root.length + 1)⟩
  else p

/-- `MarkdownConverter.batch_convert`: walk the files below `inputDir` in
traversal order (the model takes the filesystem list itself as the
`rglob` enumeration, snapshot at entry), keep only supported extensions,
convert each with the orchestrator threading the filesystem through, and
record a failure record when conversion raises.  Files with unsupported
extensions are filtered out BEFORE conversion and contribute nothing. -/
def batchConvert (office : OfficeOracle) (fs : FS) (inputDir outputDir : String) :
    List BatchRecord × FS :=
  ((fs.filter fun f => f.path.data.take (inputDir.length + 1) = (inputDir ++ "/").data).foldl
    (fun acc f =>
      if supportedExts.contains (strLower (pathSuffix f.path)) then
        let outFile := outputDir ++ "/" ++ withSuffixMd (relTo inputDir f.path)
        match convertToMarkdown office acc.2 f.path (some outFile) with
        | (.ok r, fs2) => (acc.1 ++ [.ok r], fs2)
        | (.error e, fs2) => (acc.1 ++ [.fail f.path e], fs2)
      else acc)
    ([], fs))

/-! ## Helper lemmas -/

theorem str_append_empty (s : String) : s ++ "" = s := by
  cases s with
  | mk l => show String.mk (l ++ []) = String.mk l; rw [List.append_nil]

theorem str_append_assoc (a b c : String) : a ++ b ++ c = a ++ (b ++ c) := by
  cases a with
  | mk la =>
    cases b with
    | mk lb =>
      cases c with
      | mk lc =>
        show String.mk (la ++ lb ++ lc) = String.mk (la ++ (lb ++ lc))
        rw [List.append_assoc]

/-- A span whose stripped text is empty is skipped by the span loop. -/
theorem renderSpanStep_blank (acc : String) (s : Span) (h : pyStrip s.text = "") :
    renderSpanStep acc s = acc := by
  unfold renderSpanStep
  rw [if_pos h]

/-- A non-blank span with size above 12 replaces the accumulated line
text: the step result does not depend on the accumulator. -/
theorem renderSpanStep_heading (acc : String) (s : Span)
    (ht : pyStrip s.text ≠ "") (hs : 12 < s.size) :
    renderSpanStep acc s = renderSpanStep "" s := by
  unfold renderSpanStep
  rw [if_neg ht, if_neg ht]
  by_cases h16 : s.size > 16
  · rw [if_pos h16, if_pos h16]
  · rw [if_neg h16, if_neg h16]
    by_cases h14 : s.size > 14
    · rw [if_pos h14, if_pos h14]
    · rw [if_neg h14, if_neg h14, if_pos hs, if_pos hs]

/-- Folding the span step over blank spans leaves the line unchanged. -/
theorem foldl_blank (acc : String) (ys : List Span)
    (h : ∀ y ∈ ys, pyStrip y.text = "") :
    List.foldl renderSpanStep acc ys = acc := by
  induction ys generalizing acc with
  | nil => rfl
  | cons y ys ih =>
    rw [List.foldl_cons, renderSpanStep_blank acc y (h y (by simp))]
    exact ih acc fun q hq => h q (by simp [hq])

/-- Pages that are all blank contribute nothing to the page join. -/
theorem joinPagesAux_blank (ps : List String) (i : Nat)
    (h : ∀ p ∈ ps, pyStrip p = "") : joinPagesAux i ps = "" := by
  induction ps generalizing i with
  | nil => rfl
  | cons p rest ih =>
    unfold joinPagesAux
    rw [if_pos (h p (by simp)), ih (i + 1) fun q hq => h q (by simp [hq]),
      str_append_empty]

/-- The rational number 16.01 (the probe value of the specification),
given in lowest terms so that comparisons evaluate in the kernel. -/
def ratSixteenOhOne : ℚ :=
  ⟨1601, 100, by norm_num, by norm_num⟩

/-! ## Claims -/

/-- C1: the claim states that `_clean_markdown` is idempotent.  It is
not: on the input `"a\n# h"` one pass yields `"a\n\n# h"` (rule 2 adds
the missing blank line before the heading), but a second pass yields
`"a\n\n\n# h"`, because the rule-2 pattern, a newline followed by `#`,
matches again even though a blank line is now present, and the run of
three newlines it creates is only collapsed by rule 1 of a THIRD pass.
This theorem evaluates the embedded code at that failing input. -/
theorem clean_markdown_not_idempotent :
    cleanMarkdown "a\n# h" = "a\n\n# h" ∧
    cleanMarkdown (cleanMarkdown "a\n# h") = "a\n\n\n# h" ∧
    cleanMarkdown (cleanMarkdown "a\n# h") ≠ cleanMarkdown "a\n# h" := by
  decide

/-- C2, counterexample: a directory holding one valid one-page PDF and
one `.txt` file does NOT produce two batch records.  `batch_convert`
filters by supported extension before converting, so the `.txt` file is
silently skipped and only one record is returned. -/
theorem batch_skips_unsupported_cex :
    (batchConvert failingOffice
      [⟨"in/a.pdf", .pdf [[Block.withLines [[⟨"hello", 12, 0⟩]]]]⟩,
       ⟨"in/b.txt", .raw⟩]
      "in" "out").1.length ≠ 2 := by
  decide

/-- C2, amended: for a directory with one valid PDF and one file with an
unsupported extension, batch conversion returns exactly ONE record — the
PDF conversion, with `success = true`; the unsupported file is dropped by
the extension filter and contributes no record (for every office oracle
and every extracted page list). -/
theorem batch_one_pdf_one_txt (office : OfficeOracle) (pages : List (List Block)) :
    (batchConvert office [⟨"in/a.pdf", .pdf pages⟩, ⟨"in/b.txt", .raw⟩] "in" "out").1
      = [BatchRecord.ok
          (pdfToMarkdown [⟨"in/a.pdf", .pdf pages⟩, ⟨"in/b.txt", .raw⟩]
            "in/a.pdf" "out/a.md" pages).1] ∧
    (batchConvert office [⟨"in/a.pdf", .pdf pages⟩, ⟨"in/b.txt", .raw⟩] "in" "out").1.length = 1 ∧
    ((pdfToMarkdown [⟨"in/a.pdf", .pdf pages⟩, ⟨"in/b.txt", .raw⟩]
        "in/a.pdf" "out/a.md" pages).1).success = true :=
  ⟨rfl, rfl, rfl⟩

/-- C3, counterexample: the page-break marker is NOT restricted to
positions between two non-empty pages.  For a two-page document whose
first page is empty and whose second page is `"a"`, the page loop emits
the marker because the page index is positive, so the assembled (and
cleaned) output BEGINS with the marker, before any page content. -/
theorem page_marker_before_first_content_cex :
    joinPages ["", "a"] = "\n\n---\n*Page 2*\n\na" ∧
    cleanMarkdown (joinPages ["", "a"]) = "---\n\n*Page 2*\n\na" := by
  decide

/-- C3, amended: the page loop inserts the marker before every non-empty
page whose 0-based index is positive, whether or not an earlier page was
non-empty.  The specific three-page instance of the claim does hold: with
pages 1 and 3 non-empty and page 2 blank, the assembled document is page
1, then exactly one marker labelled `Page 3`, then page 3. -/
theorem joinPages_three_pages_middle_blank (p1 p2 p3 : String)
    (h1 : pyStrip p1 ≠ "") (h2 : pyStrip p2 = "") (h3 : pyStrip p3 ≠ "") :
    joinPages [p1, p2, p3] = p1 ++ (pageMarker 3 ++ p3) := by
  simp only [joinPages, joinPagesAux, if_neg h1, if_pos h2, if_neg h3]
  norm_num

/-- Witness for the amended C3 theorem at concrete pages `"a"`, `" "`,
`"b"` (page 2 is whitespace-only, hence blank). -/
theorem joinPages_three_pages_middle_blank_w :
    pyStrip "a" ≠ "" ∧ pyStrip " " = "" ∧ pyStrip "b" ≠ "" ∧
    joinPages ["a", " ", "b"] = "a" ++ (pageMarker 3 ++ "b") :=
  ⟨by decide, by decide, by decide,
    joinPages_three_pages_middle_blank "a" " " "b" (by decide) (by decide) (by decide)⟩

/-- C4, counterexample: in a line whose first span is a heading
(size 17) and whose second span is body text `"b"` (size 12), the body
span's text IS appended after the heading rendering: the emitted line is
`"# Hb"`, not the heading string `"# H"` alone, refuting the claim that
text of later normal-font spans does not appear. -/
theorem heading_line_keeps_later_spans_cex :
    pyStrip (processLine [⟨"H", 17, 0⟩, ⟨"b", 12, 0⟩]) = "# Hb" ∧
    pyStrip (processLine [⟨"H", 17, 0⟩, ⟨"b", 12, 0⟩]) ≠ "# H" := by
  decide

/-- C4, amended: when a span of a line classifies as a heading, the line
text accumulated from all EARLIER spans is discarded (the processed line
is the same as if the line had started at the heading span), but spans
occurring AFTER the heading span are still processed and body spans among
them append their text to the heading rendering. -/
theorem processLine_heading_discards_earlier (xs : List Span) (s : Span)
    (rest : List Span) (ht : pyStrip s.text ≠ "") (hs : 12 < s.size) :
    processLine (xs ++ s :: rest) = processLine (s :: rest) := by
  unfold processLine
  rw [List.foldl_append, List.foldl_cons, List.foldl_cons,
    renderSpanStep_heading (List.foldl renderSpanStep "" xs) s ht hs]

/-- Witness for the amended C4 theorem: a body span before the heading
and a body span after it; the earlier text vanishes, the later remains. -/
theorem processLine_heading_discards_earlier_w :
    pyStrip "H" ≠ "" ∧ (12:ℚ) < 17 ∧
    processLine ([⟨"a", 12, 0⟩] ++ ⟨"H", 17, 0⟩ :: [⟨"b", 12, 0⟩])
      = processLine (⟨"H", 17, 0⟩ :: [⟨"b", 12, 0⟩]) :=
  ⟨by decide, by decide,
    processLine_heading_discards_earlier [⟨"a", 12, 0⟩] ⟨"H", 17, 0⟩ [⟨"b", 12, 0⟩]
      (by decide) (by decide)⟩

/-- C5, counterexample: a span with `fontSize = 16.0` does NOT classify
as plain/body styling — the body rendering of `"x"` with no style flags
would contribute `"x "` — it classifies as a LEVEL-2 heading `"## x"`
(16.0 fails the strict `> 16` test but passes `> 14`). -/
theorem font_size_16_not_body_cex :
    renderSpanStep "" ⟨"x", 16, 0⟩ = "## x" ∧
    renderSpanStep "" ⟨"x", 16, 0⟩ ≠ "x " ∧
    renderSpanStep "" ⟨"x", 16, 0⟩ ≠ "# x" := by
  decide

/-- C5, amended: the comparisons are strict, so `fontSize = 16.0` is not
a level-1 heading — but it is a level-2 heading (`## `), not plain/body
text; `fontSize = 16.01` is a level-1 heading (`# `). -/
theorem font_size_threshold_boundary :
    renderSpanStep "" ⟨"x", 16, 0⟩ = "## x" ∧
    renderSpanStep "" ⟨"x", ratSixteenOhOne, 0⟩ = "# x" := by
  decide

/-- C6: the claim states that normalization rule 2 inserts a blank line
before a heading line only when one is missing.  The code's pattern — a
newline immediately followed by `#` — also matches when the preceding
line is already blank: on `"x\n\n## y"`, whose heading is already
preceded by a blank line, the pass still inserts another newline and
returns `"x\n\n\n## y"`.  This theorem evaluates the embedded code at
that failing input. -/
theorem rule2_inserts_despite_blank :
    cleanMarkdown "x\n\n## y" = "x\n\n\n## y" ∧
    cleanMarkdown "x\n\n## y" ≠ "x\n\n## y" := by
  decide

/-- C7: a body span (any size at most 12) with both the bold bit (2^4)
and the italic bit (2^1) set — flags 18 — renders as `***x***`: bold
wrapping is applied first and italic is wrapped around the already-bold
text, and the span loop appends the result plus the separating space to
the accumulated line. -/
theorem bold_italic_nesting (acc : String) (sz : ℚ) (h : sz ≤ 12) :
    applyStyle 18 "x" = "***x***" ∧
    applyStyle 18 "x" = "*" ++ ("**" ++ "x" ++ "**") ++ "*" ∧
    renderSpanStep acc ⟨"x", sz, 18⟩ = acc ++ "***x*** " := by
  have h16 : ¬ (16:ℚ) < sz := not_lt.mpr (h.trans (by norm_num))
  have h14 : ¬ (14:ℚ) < sz := not_lt.mpr (h.trans (by norm_num))
  have h12 : ¬ (12:ℚ) < sz := not_lt.mpr h
  refine ⟨by decide, by decide, ?_⟩
  simp only [renderSpanStep]
  rw [if_neg (by decide : ¬ pyStrip "x" = ""), if_neg h16, if_neg h14, if_neg h12,
    str_append_assoc]
  congr 1

/-- Witness for C7 at size exactly 12 and an empty accumulated line. -/
theorem bold_italic_nesting_w :
    (12:ℚ) ≤ 12 ∧ renderSpanStep "" ⟨"x", 12, 18⟩ = "" ++ "***x*** " :=
  ⟨by decide, (bold_italic_nesting "" 12 (by decide)).2.2⟩

/-- C8: converting an existing input whose extension is `.txt` raises the
unsupported-format error, and the filesystem is returned unchanged — no
output file is created (the error is raised before any write). -/
theorem convert_txt_unsupported (office : OfficeOracle) (fs : FS) (p : String)
    (o : Option String) (h1 : fsHas fs p = true)
    (h2 : strLower (pathSuffix p) = ".txt") :
    convertToMarkdown office fs p o = (.error (.unsupportedFormat ".txt"), fs) := by
  have hmem : ".txt" ∉ supportedExts := by decide
  simp [convertToMarkdown, h1, h2, hmem]

/-- Witness for C8: a one-file filesystem holding `doc.txt`. -/
theorem convert_txt_unsupported_w :
    fsHas [⟨"doc.txt", .raw⟩] "doc.txt" = true ∧
    strLower (pathSuffix "doc.txt") = ".txt" ∧
    convertToMarkdown failingOffice [⟨"doc.txt", .raw⟩] "doc.txt" none
      = (.error (.unsupportedFormat ".txt"), [⟨"doc.txt", .raw⟩]) :=
  ⟨by decide, by decide,
    convert_txt_unsupported failingOffice [⟨"doc.txt", .raw⟩] "doc.txt" none
      (by decide) (by decide)⟩

/-- C9: if a heading span (non-blank, size above 12) is followed only by
blank spans in its line, the processed line equals the processing of that
span alone: the heading rendering replaces everything accumulated from
earlier spans of the line, body or heading alike. -/
theorem processLine_last_heading_overwrites (xs : List Span) (s : Span)
    (ys : List Span) (ht : pyStrip s.text ≠ "") (hs : 12 < s.size)
    (hys : ∀ y ∈ ys, pyStrip y.text = "") :
    processLine (xs ++ s :: ys) = processLine [s] := by
  unfold processLine
  rw [List.foldl_append, List.foldl_cons,
    renderSpanStep_heading (List.foldl renderSpanStep "" xs) s ht hs,
    foldl_blank (renderSpanStep "" s) ys hys, List.foldl_cons, List.foldl_nil]

/-- Witness for C9: a body span and a level-2-sized span before the final
heading span, a whitespace-only span after it. -/
theorem processLine_last_heading_overwrites_w :
    pyStrip "T" ≠ "" ∧ (12:ℚ) < 17 ∧
    (∀ y ∈ [(⟨"  ", 12, 0⟩ : Span)], pyStrip y.text = "") ∧
    processLine ([⟨"intro", 12, 0⟩, ⟨"Big", 15, 0⟩] ++ ⟨"T", 17, 0⟩ :: [⟨"  ", 12, 0⟩])
      = processLine [⟨"T", 17, 0⟩] :=
  ⟨by decide, by decide, by decide,
    processLine_last_heading_overwrites [⟨"intro", 12, 0⟩, ⟨"Big", 15, 0⟩]
      ⟨"T", 17, 0⟩ [⟨"  ", 12, 0⟩] (by decide) (by decide) (by decide)⟩

/-- C10: a PDF in which every page yields no non-blank content converts
successfully: the result record has `success = true`, `word_count = 0`
and `char_count = 0`, and an output file holding the empty string is
written. -/
theorem pdf_blank_pages_succeeds (fs : FS) (pdfPath outPath : String)
    (pages : List (List Block))
    (h : ∀ pg ∈ pages, pyStrip (processPdfBlocks pg) = "") :
    (pdfToMarkdown fs pdfPath outPath pages).1.success = true ∧
    (pdfToMarkdown fs pdfPath outPath pages).1.wordCount = 0 ∧
    (pdfToMarkdown fs pdfPath outPath pages).1.charCount = 0 ∧
    (pdfToMarkdown fs pdfPath outPath pages).2 = writeFile fs outPath (.text "") := by
  have hb : ∀ p ∈ pages.map processPdfBlocks, pyStrip p = "" := by
    intro p hp
    obtain ⟨pg, hpg, rfl⟩ := List.mem_map.mp hp
    exact h pg hpg
  have hfull : cleanMarkdown (joinPages (pages.map processPdfBlocks)) = "" := by
    rw [joinPages, joinPagesAux_blank _ 0 hb]; rfl
  simp [pdfToMarkdown, hfull]
  decide

/-- Witness for C10: a one-page PDF whose only line holds a
whitespace-only span (plus an image block without lines). -/
theorem pdf_blank_pages_succeeds_w :
    (∀ pg ∈ [[Block.withLines [[⟨"  ", 12, 0⟩]], Block.noLines]],
      pyStrip (processPdfBlocks pg) = "") ∧
    ((pdfToMarkdown [] "d.pdf" "d.md" [[Block.withLines [[⟨"  ", 12, 0⟩]], Block.noLines]]).1.success = true ∧
     (pdfToMarkdown [] "d.pdf" "d.md" [[Block.withLines [[⟨"  ", 12, 0⟩]], Block.noLines]]).1.wordCount = 0 ∧
     (pdfToMarkdown [] "d.pdf" "d.md" [[Block.withLines [[⟨"  ", 12, 0⟩]], Block.noLines]]).1.charCount = 0 ∧
     (pdfToMarkdown [] "d.pdf" "d.md" [[Block.withLines [[⟨"  ", 12, 0⟩]], Block.noLines]]).2
       = writeFile [] "d.md" (.text "")) :=
  ⟨by decide,
    pdf_blank_pages_succeeds [] "d.pdf" "d.md"
      [[Block.withLines [[⟨"  ", 12, 0⟩]], Block.noLines]] (by decide)⟩

end MDC
